import Mathlib

/-!
Shallow embedding of the openpay-react-integration card-validation engine
(src/utils/validator.ts) and client lifecycle manager (src/openpay-client.ts).

Strings of the TypeScript source are modelled as `List Char`; JavaScript
regular expressions are translated structurally into decidable predicates.
-/

namespace OpenPaySpec

/-- JS `\s` whitespace class, restricted to its ASCII members (the card
validation code only ever meets ASCII input). -/
def isJsSpace (c : Char) : Bool :=
  c == ' ' || c == '\t' || c == '\n' || c == '\r' || c == '\x0b' || c == '\x0c'

/-- `val.replace(/\s+/g, "")`: delete every whitespace character. -/
def stripWs (s : List Char) : List Char :=
  s.filter (fun c => !(isJsSpace c))

/-- `str.replace(/\D/g, "")`: keep only the decimal digits. -/
def stripNonDigits (s : List Char) : List Char :=
  s.filter Char.isDigit

/-- Does the character list start with the given pattern list
(`^...` anchoring of a literal alternative in a JS regex)? -/
def listStartsWith : List Char → List Char → Bool
  | [], _ => true
  | _ :: _, [] => false
  | a :: ps, b :: ss => a == b && listStartsWith ps ss

/-- `/^4[0-9]{12}(?:[0-9]{3})?$/` (CARD_PATTERNS.visa). -/
def visaTest : List Char → Bool
  | c :: rest =>
      c == '4' && (rest.length == 12 || rest.length == 15) && rest.all Char.isDigit
  | [] => false

/-- `/^5[1-5][0-9]{14}$/` (CARD_PATTERNS.mastercard). -/
def mastercardTest : List Char → Bool
  | a :: b :: rest =>
      a == '5' && ('1' ≤ b && b ≤ '5') && rest.length == 14 && rest.all Char.isDigit
  | _ => false

/-- `/^3[47][0-9]{13}$/` (CARD_PATTERNS.amex). -/
def amexTest : List Char → Bool
  | a :: b :: rest =>
      a == '3' && (b == '4' || b == '7') && rest.length == 13 && rest.all Char.isDigit
  | _ => false

/-- `/^3(?:0[0-5]|[68][0-9])[0-9]{11}$/` (CARD_PATTERNS.diners). -/
def dinersTest : List Char → Bool
  | a :: b :: c :: rest =>
      a == '3' && ((b == '0' && ('0' ≤ c && c ≤ '5')) || ((b == '6' || b == '8') && c.isDigit))
        && rest.length == 11 && rest.all Char.isDigit
  | _ => false

/-- `/^6(?:011|5[0-9]{2})[0-9]{12}$/` (CARD_PATTERNS.discover). -/
def discoverTest : List Char → Bool
  | a :: b :: c :: d :: rest =>
      a == '6' && ((b == '0' && c == '1' && d == '1') || (b == '5' && c.isDigit && d.isDigit))
        && rest.length == 12 && rest.all Char.isDigit
  | _ => false

/-- `/^(4026|417500|4508|4844|491(3|7))/` (CARD_PATTERNS.visa_electron).
Only anchored at the start: any string with one of these prefixes matches. -/
def visaElectronTest (s : List Char) : Bool :=
  listStartsWith "4026".data s || listStartsWith "417500".data s ||
  listStartsWith "4508".data s || listStartsWith "4844".data s ||
  listStartsWith "4913".data s || listStartsWith "4917".data s

/-- `/^(5018|5020|5038|6304|6759|676[1-3])/` (CARD_PATTERNS.maestro).
Only anchored at the start. -/
def maestroTest (s : List Char) : Bool :=
  listStartsWith "5018".data s || listStartsWith "5020".data s ||
  listStartsWith "5038".data s || listStartsWith "6304".data s ||
  listStartsWith "6759".data s || listStartsWith "6761".data s ||
  listStartsWith "6762".data s || listStartsWith "6763".data s

/-- The ordered pattern table `CARD_PATTERNS`; `Object.entries` enumerates it
in insertion order. -/
def CARD_PATTERNS : List (String × (List Char → Bool)) :=
  [("visa", visaTest), ("mastercard", mastercardTest), ("amex", amexTest),
   ("diners", dinersTest), ("discover", discoverTest),
   ("visa_electron", visaElectronTest), ("maestro", maestroTest)]

/-- The `for (const [type, pattern] of Object.entries(CARD_PATTERNS))` loop of
`validators.getCardType`. -/
def getCardTypeGo : List (String × (List Char → Bool)) → List Char → String
  | [], _ => "unknown"
  | (t, p) :: rest, cn => if p cn then t else getCardTypeGo rest cn

/-- `validators.getCardType`: first pattern of the table matching the card
number string as given (no whitespace stripping happens here). -/
def getCardType (cardNumber : List Char) : String :=
  getCardTypeGo CARD_PATTERNS cardNumber

/-- `validators.matchesCardType`: does the number match one named pattern. -/
def matchesCardType (cardNumber : List Char) (t : String) : Bool :=
  (CARD_PATTERNS.filter (fun e => e.1 == t)).any (fun e => e.2 cardNumber)

/-- One doubled Luhn digit: `digit *= 2; if (digit > 9) digit -= 9`. -/
def luhnDouble (d : Nat) : Nat :=
  if d * 2 > 9 then d * 2 - 9 else d * 2

/-- The summation loop of `validators.luhnCheck`, consuming the digit values
right-to-left (the argument list is already reversed) with the `isEven`
toggle of the source. -/
def luhnSum : List Nat → Bool → Nat
  | [], _ => 0
  | d :: rest, isEven =>
      (if isEven then luhnDouble d else d) + luhnSum rest (!isEven)

/-- Numeric value of a digit character (`Number.parseInt(digits.charAt(i))`
on a single digit). -/
def digitVal (c : Char) : Nat :=
  c.toNat - '0'.toNat

/-- `validators.luhnCheck`: strip non-digits, sum with every second digit from
the right doubled (9 subtracted when the double exceeds 9), accept iff the sum
is divisible by 10. -/
def luhnCheck (cardNumber : List Char) : Bool :=
  let digits := (stripNonDigits cardNumber).map digitVal
  luhnSum digits.reverse false % 10 == 0

/-- The spec wording of the Luhn rule: walk the digits right-to-left, leave
the first, double the second (subtracting 9 when above 9), and so on in
alternation. The argument is the reversed digit list. -/
def luhnSpecGo : List Nat → Nat
  | [] => 0
  | [d] => d
  | d :: e :: rest => d + luhnDouble e + luhnSpecGo rest

/-- The Luhn predicate exactly as the specification text describes it. -/
def luhnSpec (cardNumber : List Char) : Bool :=
  luhnSpecGo (((stripNonDigits cardNumber).map digitVal).reverse) % 10 == 0

/-- Value of a list of digit characters read in base 10. -/
def digitsToNat (ds : List Char) : Nat :=
  ds.foldl (fun a c => a * 10 + digitVal c) 0

/-- `Number.parseInt(s, 10)`: `none` models `NaN`. Leading whitespace is
skipped and the maximal leading digit run is read; sign prefixes are not
modelled (the expiry fields this is applied to are digit strings). -/
def parseIntJS (s : List Char) : Option Nat :=
  let ds := (s.dropWhile isJsSpace).takeWhile Char.isDigit
  if ds.isEmpty then none else some (digitsToNat ds)

/-- `validators.isExpirationValid`, with the clock
(`getFullYear() % 100`, `getMonth() + 1`) passed as parameters.  Every
comparison against `NaN` is false in JS, which the `none` branches mirror:
with an unparseable year both guards fail and the function returns true. -/
def isExpirationValid (currentYear currentMonth : Nat) (month year : List Char) : Bool :=
  let expMonth := parseIntJS month
  let expYear := parseIntJS year
  match expYear with
  | none => true
  | some ey =>
      if ey < currentYear then false
      else if ey == currentYear &&
          (match expMonth with | none => false | some em => decide (em < currentMonth)) then false
      else true

/-- `[a-zA-Z]`. -/
def isAsciiLetter (c : Char) : Bool :=
  ('a' ≤ c && c ≤ 'z') || ('A' ≤ c && c ≤ 'Z')

/-- `/^[a-zA-Z\s]+$/` (holder name shape). -/
def holderNameRegex (s : List Char) : Bool :=
  !s.isEmpty && s.all (fun c => isAsciiLetter c || isJsSpace c)

/-- `/^[0-9]{2}$/` (expiration year shape). -/
def twoDigitRegex (s : List Char) : Bool :=
  s.length == 2 && s.all Char.isDigit

/-- `/^(0[1-9]|1[0-2])$/` (expiration month shape). -/
def monthRegex : List Char → Bool
  | [a, b] => (a == '0' && ('1' ≤ b && b ≤ '9')) || (a == '1' && ('0' ≤ b && b ≤ '2'))
  | _ => false

/-- `/^\d+$/` (CVV shape). -/
def digitsRegex (s : List Char) : Bool :=
  !s.isEmpty && s.all Char.isDigit

/-- A zod issue: path into the object plus human-readable message. -/
structure Issue where
  path : List String
  message : String
deriving DecidableEq, Repr

/-- The optional billing address (all fields well-typed strings). -/
structure Address where
  city : List Char
  country_code : List Char
  postal_code : List Char
  line1 : List Char
  line2 : Option (List Char)
  line3 : Option (List Char)
  state : List Char
deriving DecidableEq, Repr

/-- A well-typed card object (`z.infer<typeof cardSchema>`). -/
structure Card where
  card_number : List Char
  holder_name : List Char
  expiration_year : List Char
  expiration_month : List Char
  cvv2 : List Char
  address : Option Address
deriving DecidableEq, Repr

/-- Issues of the `card_number` field schema:
`z.string().min(13).max(19).refine(stripped number matches some pattern)`.
zod runs every string check and then the refinement, collecting all
failures; the length bounds apply to the raw string, the pattern test to the
whitespace-stripped string. -/
def cardNumberIssues (v : List Char) : List Issue :=
  (if v.length < 13 then [⟨["card_number"], "Card number must be at least 13 digits"⟩] else []) ++
  (if v.length > 19 then [⟨["card_number"], "Card number must not exceed 19 digits"⟩] else []) ++
  (if CARD_PATTERNS.any (fun e => e.2 (stripWs v)) then []
   else [⟨["card_number"], "Invalid card number format"⟩])

/-- Issues of the `holder_name` field schema. -/
def holderNameIssues (v : List Char) : List Issue :=
  (if v.length < 3 then [⟨["holder_name"], "Holder name must be at least 3 characters"⟩] else []) ++
  (if v.length > 100 then [⟨["holder_name"], "Holder name must not exceed 100 characters"⟩] else []) ++
  (if holderNameRegex v then []
   else [⟨["holder_name"], "Holder name must contain only letters and spaces"⟩])

/-- Issues of the `expiration_year` field schema; the refinement compares the
parsed year against the clock's two-digit year (`NaN >= y` is false). -/
def expirationYearIssues (currentYear : Nat) (v : List Char) : List Issue :=
  (if v.length == 2 then [] else [⟨["expiration_year"], "Expiration year must be 2 digits"⟩]) ++
  (if twoDigitRegex v then [] else [⟨["expiration_year"], "Expiration year must be numeric"⟩]) ++
  (if (match parseIntJS v with | none => false | some y => decide (y ≥ currentYear)) then []
   else [⟨["expiration_year"], "Expiration year must not be in the past"⟩])

/-- Issues of the `expiration_month` field schema. -/
def expirationMonthIssues (v : List Char) : List Issue :=
  (if v.length == 2 then [] else [⟨["expiration_month"], "Expiration month must be 2 digits"⟩]) ++
  (if monthRegex v then []
   else [⟨["expiration_month"], "Expiration month must be between 01 and 12"⟩])

/-- Issues of the `cvv2` field schema: `min(3).max(4).regex(/^\d+$/)`. -/
def cvv2FieldIssues (v : List Char) : List Issue :=
  (if v.length < 3 then [⟨["cvv2"], "CVV must be at least 3 digits"⟩] else []) ++
  (if v.length > 4 then [⟨["cvv2"], "CVV must not exceed 4 digits"⟩] else []) ++
  (if digitsRegex v then [] else [⟨["cvv2"], "CVV must be numeric"⟩])

/-- Issues of the optional `address` sub-schema, prefixed with its path. -/
def addressIssues (a : Address) : List Issue :=
  (if a.city.length < 1 then [⟨["address", "city"], "City is required"⟩] else []) ++
  (if a.country_code.length == 2 then []
   else [⟨["address", "country_code"], "Country code must be 2 characters"⟩]) ++
  (if a.postal_code.length < 1 then [⟨["address", "postal_code"], "Postal code is required"⟩] else []) ++
  (if a.line1.length < 1 then [⟨["address", "line1"], "Address line 1 is required"⟩] else []) ++
  (if a.state.length < 1 then [⟨["address", "state"], "State is required"⟩] else [])

/-- The `superRefine` of `cardSchema`: brand-conditioned CVV length.  In zod
v3 a refinement effect runs whenever the inner parse is not aborted; a
well-typed card object (all fields strings) never aborts, so the effect
always runs here, even when other fields carry issues. -/
def cvvBrandIssues (c : Card) : List Issue :=
  let cardNumber := stripWs c.card_number
  let cvvLength := c.cvv2.length
  if amexTest cardNumber then
    if cvvLength ≠ 4 then [⟨["cvv2"], "Invalid CVV length for American Express card"⟩] else []
  else
    if cvvLength ≠ 3 then [⟨["cvv2"], "Invalid CVV length for card type"⟩] else []

/-- All issues `cardSchema.safeParse` reports on a well-typed card object,
with the clock's two-digit year as a parameter. -/
def cardSchemaIssues (currentYear : Nat) (c : Card) : List Issue :=
  cardNumberIssues c.card_number ++
  holderNameIssues c.holder_name ++
  expirationYearIssues currentYear c.expiration_year ++
  expirationMonthIssues c.expiration_month ++
  cvv2FieldIssues c.cvv2 ++
  (match c.address with | none => [] | some a => addressIssues a) ++
  cvvBrandIssues c

/-- `validators.validateCard(card).success` for a well-typed card object. -/
def validateCardSuccess (currentYear : Nat) (c : Card) : Bool :=
  (cardSchemaIssues currentYear c).isEmpty

/-- Is the `cvv2` field flagged by the schema validation? -/
def cvv2Flagged (currentYear : Nat) (c : Card) : Bool :=
  (cardSchemaIssues currentYear c).any (fun i => i.path == ["cvv2"])

/-- Does `l` carry an issue for the given path? -/
def pathFlagged (p : List String) (l : List Issue) : Bool :=
  l.any (fun i => i.path == p)

/-!
Client lifecycle manager (`OpenPayClient` of src/openpay-client.ts).
The mutable fields of the class plus the DOM resources it owns are the state;
the outcome of each initialization attempt (script load, vendor handle,
device-session setup) enters as an oracle indexed by attempt number, and the
`Math.random()` jitter as a rational-valued oracle.
-/

/-- State of one `OpenPayClient`: its mutable fields, the pending-timer status
of the two timers it owns, and the vendor script tags in the document
(`retryTimeout`/`healthCheckInterval` model whether a timer is pending, which
is what `clearTimeout`/`clearInterval` act on). -/
structure ClientState where
  initialized : Bool
  deviceSessionId : String
  retryTimeout : Bool
  healthCheckInterval : Bool
  scripts : List (List Char)
deriving DecidableEq, Repr

/-- The state of a freshly constructed client before any operation ran. -/
def initialClientState : ClientState :=
  { initialized := false, deviceSessionId := "", retryTimeout := false,
    healthCheckInterval := false, scripts := [] }

/-- What one initialization attempt produced: a thrown error (script load
failure or missing `window.OpenPay`), or the value `setupDeviceSession`
returned (the empty string standing for `null`/empty). -/
inductive AttemptOutcome where
  | fail (err : String)
  | session (sid : String)
deriving DecidableEq, Repr

/-- The try-block of one loop iteration of `initializeWithRetry`: a thrown
error stays an error, and a falsy session id (`if (!sessionId) throw ...`)
becomes one. -/
def attemptResult : AttemptOutcome → Except String String
  | .fail e => .error e
  | .session sid => if sid == "" then .error "Failed to setup device session" else .ok sid

/-- Does the attempt count as a failure in the loop? -/
def attemptFails : AttemptOutcome → Bool
  | .fail _ => true
  | .session sid => sid == ""

/-- The error the loop records for a failed attempt. -/
def attemptError : AttemptOutcome → String
  | .fail e => e
  | .session _ => "Failed to setup device session"

/-- `min(this.retryDelay * 2 ** (retryCount - 1) + jitter, this.maxRetryDelay)`
with `retryDelay = 2000` and `maxRetryDelay = 10000`, written with the
0-based index `k` of the attempt that just failed (the source increments
`retryCount` first, so its `retryCount - 1` equals `k`). -/
def backoffDelay (k : Nat) (jit : Nat → ℚ) : ℚ :=
  min (2000 * 2 ^ k + jit k) 10000

/-- What a run of the `while` loop of `initializeWithRetry` produced:
the state after the run, the recorded `lastError` (`none` when an attempt
succeeded), the delays awaited between attempts, and how many attempts ran. -/
structure RetryResult where
  state : ClientState
  lastError : Option String
  delays : List ℚ
  attempts : Nat
deriving DecidableEq

/-- The `while (retryCount < this.maxRetries)` loop of `initializeWithRetry`,
called with the current attempt index `k` and the remaining budget
`maxRetries - k`.  On success it assigns `deviceSessionId` then `initialized`
and returns; on failure it waits `backoffDelay` iff budget remains. -/
def retryLoop (out : Nat → AttemptOutcome) (jit : Nat → ℚ) (s : ClientState) :
    Nat → Nat → RetryResult
  | _, 0 => ⟨s, none, [], 0⟩
  | k, remaining + 1 =>
      match attemptResult (out k) with
      | .ok sid => ⟨{ s with deviceSessionId := sid, initialized := true }, none, [], 1⟩
      | .error e =>
          if remaining = 0 then ⟨s, some e, [], 1⟩
          else
            let r := retryLoop out jit s (k + 1) remaining
            ⟨r.state, r.lastError, backoffDelay k jit :: r.delays, r.attempts + 1⟩

/-- `this.maxRetries`. -/
def maxRetries : Nat := 3

/-- Result of `initializeWithRetry`: final state, and whether the promise
resolved or rejected with the last error. -/
structure InitResult where
  state : ClientState
  result : Except String Unit
  delays : List ℚ
  attempts : Nat

/-- `OpenPayClient.initializeWithRetry(silent)`: run the retry loop from
attempt 0 with the full budget; after exhausting it, `if (!silent) throw
lastError`. -/
def initializeWithRetry (out : Nat → AttemptOutcome) (jit : Nat → ℚ)
    (s : ClientState) (silent : Bool) : InitResult :=
  let r := retryLoop out jit s 0 maxRetries
  match r.lastError with
  | none => ⟨r.state, .ok (), r.delays, r.attempts⟩
  | some e => ⟨r.state, if silent then .ok () else .error e, r.delays, r.attempts⟩

/-- `OpenPayClient.scheduleRetry`: (re)arm the retry timer. -/
def scheduleRetry (s : ClientState) : ClientState :=
  { s with retryTimeout := true }

/-- `OpenPayClient.startHealthCheck`: arm the periodic health-check timer. -/
def startHealthCheck (s : ClientState) : ClientState :=
  { s with healthCheckInterval := true }

/-- `OpenPayClient.initialize` (the construction-time, background path):
`initializeWithRetry()` with the default `silent = false`, any rejection
caught, swallowed and answered with `scheduleRetry()`. -/
def initializeInBackground (out : Nat → AttemptOutcome) (jit : Nat → ℚ)
    (s : ClientState) : ClientState × List ℚ × Nat :=
  let r := initializeWithRetry out jit s false
  match r.result with
  | .ok _ => (r.state, r.delays, r.attempts)
  | .error _ => (scheduleRetry r.state, r.delays, r.attempts)

/-- Does one character list occur inside another
(`src*="openpay.pe"` attribute substring selector)? -/
def containsSeq (needle hay : List Char) : Bool :=
  (List.range (hay.length + 1)).any (fun i => listStartsWith needle (hay.drop i))

/-- Is a script tag one of the vendor's
(`document.querySelectorAll('script[src*="openpay.pe"]')`)? -/
def vendorScript (src : List Char) : Bool :=
  containsSeq "openpay.pe".data src

/-- `OpenPayClient.cleanup()`: cancel both timers, remove every script tag
whose src contains the vendor substring, reset `initialized` and
`deviceSessionId`. -/
def cleanup (s : ClientState) : ClientState :=
  { initialized := false, deviceSessionId := "", retryTimeout := false,
    healthCheckInterval := false,
    scripts := s.scripts.filter (fun src => !vendorScript src) }

/-- The state invariant of §3 of the spec: `deviceSessionId` is non-empty
exactly when `initialized` is set. -/
def sessionInv (s : ClientState) : Bool :=
  (s.deviceSessionId != "") == s.initialized

/-!
`card.fields.validateField` of src/openpay-client.ts.  The vendor SDK's
field validators (`window.OpenPay.card.*`) are oracles supplied as a
structure; `cardType` returning the empty string stands for any falsy or
non-string vendor answer (including a throw), which the source maps to
`"unknown"`.
-/

/-- The vendor SDK validators reachable through `window.OpenPay.card`. -/
structure SDK where
  validateCardNumber : List Char → Bool
  validateCVC : List Char → Option (List Char) → Bool
  validateExpiry : List Char → List Char → Bool
  cardType : List Char → String

/-- The field names of the `Card` type (`keyof Card`); `address` reaches the
`default` branch of the source's switch. -/
inductive FieldName where
  | card_number | holder_name | expiration_year | expiration_month | cvv2 | address
deriving DecidableEq, Repr

/-- The record `validateField` returns. -/
structure CardFieldStatus where
  isValid : Bool
  cardType : Option String
  message : String
  isDirty : Bool
  value : List Char
deriving DecidableEq, Repr

/-- JS `String.prototype.trim()`. -/
def trimWs (s : List Char) : List Char :=
  ((s.dropWhile isJsSpace).reverse.dropWhile isJsSpace).reverse

/-- `OpenPayClient.card.validateHolderName` (purely local, no SDK). -/
def validateHolderName (name : List Char) : Bool :=
  !name.isEmpty && decide (3 ≤ (trimWs name).length) && holderNameRegex name

/-- The local closure `getCardTypeSync` of `validateField`: `"unknown"`
whenever the client is not initialized or the vendor answer is falsy. -/
def getCardTypeSync (sdk : SDK) (init : Bool) (n : List Char) : String :=
  if !init then "unknown"
  else
    let t := sdk.cardType n
    if t == "" then "unknown" else t

/-- The shared tail of the two expiration branches of `validateField`. -/
def expiryStatus (sdk : SDK) (init : Bool) (month year value : List Char) : CardFieldStatus :=
  let isValid := init && sdk.validateExpiry month year
  { isValid, cardType := none,
    message :=
      if isValid then "Valid expiration date"
      else if month.length > 0 && year.length > 0 then "Invalid expiration date"
      else "",
    isDirty := true, value }

/-- `OpenPayClient.card.fields.validateField(fieldName, value, cardNumber?)`.
The un-awaited `ensureInitialized()` side effect does not influence the
returned record, which is computed from the current `initialized` flag. -/
def validateField (sdk : SDK) (init : Bool) (fieldName : FieldName)
    (value : List Char) (cardNumber : Option (List Char)) : CardFieldStatus :=
  match fieldName with
  | .card_number =>
      let isValid := init && sdk.validateCardNumber value
      let cardType := getCardTypeSync sdk init value
      { isValid, cardType := some cardType,
        message :=
          if isValid then "Valid " ++ cardType ++ " card"
          else if value.length > 0 then "Invalid card number"
          else "",
        isDirty := true, value }
  | .cvv2 =>
      let isValid := init && sdk.validateCVC value cardNumber
      let cardType : Option String :=
        match cardNumber with
        | some n => if n.isEmpty then none else some (getCardTypeSync sdk init n)
        | none => none
      { isValid, cardType,
        message :=
          if isValid then "Valid CVV"
          else if value.length > 0 then
            "Invalid CVV (" ++ (if cardType == some "american_express" then "4" else "3")
              ++ " digits required)"
          else "",
        isDirty := true, value }
  | .holder_name =>
      let isValid := validateHolderName value
      { isValid, cardType := none,
        message :=
          if isValid then "Valid name"
          else if value.length > 0 then
            "Name must contain only letters and spaces (min 3 characters)"
          else "",
        isDirty := true, value }
  | .expiration_month =>
      expiryStatus sdk init value (cardNumber.getD []) value
  | .expiration_year =>
      expiryStatus sdk init (cardNumber.getD []) value value
  | .address =>
      { isValid := false, cardType := none, message := "Invalid field",
        isDirty := true, value }

/-!  Helper lemmas. -/

theorem luhnSum_false_eq_spec (l : List Nat) : luhnSum l false = luhnSpecGo l := by
  induction l using luhnSpecGo.induct with
  | case1 => rfl
  | case2 d => rfl
  | case3 d e rest ih => simp [luhnSum, luhnSpecGo, ih]; omega

theorem getCardType_eq_chain (cn : List Char) :
    getCardType cn =
      (if visaTest cn then "visa"
       else if mastercardTest cn then "mastercard"
       else if amexTest cn then "amex"
       else if dinersTest cn then "diners"
       else if discoverTest cn then "discover"
       else if visaElectronTest cn then "visa_electron"
       else if maestroTest cn then "maestro"
       else "unknown") := rfl

theorem getCardType_unknown_iff (cn : List Char) :
    getCardType cn = "unknown" ↔ CARD_PATTERNS.all (fun e => !(e.2 cn)) = true := by
  rw [getCardType_eq_chain]
  simp only [CARD_PATTERNS, List.all_cons, List.all_nil]
  split_ifs <;> simp_all

theorem amexTest_shape (cn : List Char) (h : amexTest cn = true) :
    ∃ b rest, cn = '3' :: b :: rest := by
  match cn, h with
  | a :: b :: rest, h =>
      simp only [amexTest, Bool.and_eq_true, beq_iff_eq] at h
      exact ⟨b, rest, by rw [h.1.1.1]⟩

theorem getCardType_amex_iff (cn : List Char) :
    getCardType cn = "amex" ↔ amexTest cn = true := by
  rw [getCardType_eq_chain]
  constructor
  · intro h
    split_ifs at h <;> simp_all
  · intro h
    obtain ⟨b, rest, rfl⟩ := amexTest_shape cn h
    simp [visaTest, mastercardTest, h]

end OpenPaySpec

namespace OpenPaySpec

/-- C1: corrected. `validators.getCardType` tries the pattern table in the
fixed order visa, mastercard, amex, diners, discover, visa_electron, maestro
and returns the brand of the first matching pattern, `unknown` when none
matches — but it matches the card number string exactly as given: no
whitespace stripping happens before matching, and a number matching a
brand's pattern can resolve to an earlier brand of the table instead. -/
theorem getCardType_spec :
    (∀ cn : List Char,
      getCardType cn =
        (if visaTest cn then "visa"
         else if mastercardTest cn then "mastercard"
         else if amexTest cn then "amex"
         else if dinersTest cn then "diners"
         else if discoverTest cn then "discover"
         else if visaElectronTest cn then "visa_electron"
         else if maestroTest cn then "maestro"
         else "unknown"))
    ∧ (∀ cn : List Char, getCardType cn = "unknown" ↔ CARD_PATTERNS.all (fun e => !(e.2 cn)) = true) :=
  ⟨getCardType_eq_chain, getCardType_unknown_iff⟩

/-- C1: counterexample to the claim as stated.  A spaced Visa number is not
stripped before matching and resolves to `unknown` although its digit-only
form matches the visa pattern; and a number matching the visa_electron
pattern resolves to `visa`, the earlier pattern of the table. -/
theorem getCardType_counterexample :
    getCardType "4111 1111 1111 1111".data = "unknown"
    ∧ visaTest (stripWs "4111 1111 1111 1111".data) = true
    ∧ getCardType (stripWs "4111 1111 1111 1111".data) = "visa"
    ∧ visaElectronTest "4026000000000000".data = true
    ∧ getCardType "4026000000000000".data = "visa" := by decide

/-- C2: corrected (amended form). `validators.isExpirationValid` returns
false exactly when the parsed year is below the current two-digit year, or
the years agree and the parsed month is below the current month; it does NOT
itself require the month to lie in 01–12 — that bound is enforced by the
schema's `expiration_month` regex.  With the clock fixed at 2025-06 the
spec's three examples evaluate as stated. -/
theorem isExpirationValid_spec :
    (∀ (cy cm : Nat) (month year : List Char) (em ey : Nat),
      parseIntJS month = some em → parseIntJS year = some ey →
      (isExpirationValid cy cm month year = false ↔ (ey < cy ∨ (ey = cy ∧ em < cm))))
    ∧ isExpirationValid 25 6 "05".data "25".data = false
    ∧ isExpirationValid 25 6 "06".data "25".data = true
    ∧ isExpirationValid 25 6 "01".data "26".data = true
    ∧ expirationMonthIssues "13".data ≠ []
    ∧ expirationMonthIssues "12".data = [] := by
  refine ⟨?_, by decide, by decide, by decide, by decide, by decide⟩
  intro cy cm month year em ey hm hy
  simp only [isExpirationValid, hm, hy]
  split_ifs with h1 h2 <;> simp_all

/-- C2: witness for the amended theorem at a concrete input. -/
theorem isExpirationValid_spec_witness :
    isExpirationValid 25 6 "04".data "25".data = false :=
  (isExpirationValid_spec.1 25 6 "04".data "25".data 4 25 (by decide) (by decide)).mpr
    (Or.inr ⟨rfl, by decide⟩)

/-- C2: counterexample to the claim as stated: month "13" with a future year
is accepted by `isExpirationValid` although 13 is outside 01–12. -/
theorem isExpirationValid_counterexample :
    isExpirationValid 25 6 "13".data "26".data = true
    ∧ parseIntJS "13".data = some 13
    ∧ monthRegex "13".data = false := by decide

/-- C3: confirmed. `validators.luhnCheck` coincides with the standard
algorithm as the spec words it (walk digits right-to-left, double every
second digit from the second-from-right, subtract 9 above 9, sum, accept iff
the sum is divisible by 10), and the two spec examples evaluate as stated. -/
theorem luhnCheck_eq_spec :
    (∀ s : List Char, luhnCheck s = luhnSpec s)
    ∧ luhnCheck "4111111111111111".data = true
    ∧ luhnCheck "4111111111111112".data = false := by
  refine ⟨?_, by decide, by decide⟩
  intro s
  simp [luhnCheck, luhnSpec, luhnSum_false_eq_spec]

/-- C10: confirmed. On any string without digit characters — the empty
string included — `luhnCheck` strips everything, sums to 0 and accepts. -/
theorem luhnCheck_no_digits :
    (∀ s : List Char, (∀ c ∈ s, c.isDigit = false) → luhnCheck s = true)
    ∧ luhnCheck [] = true := by
  refine ⟨?_, by decide⟩
  intro s h
  have hnil : stripNonDigits s = [] := by
    simp only [stripNonDigits, List.filter_eq_nil_iff]
    intro a ha
    simp [h a ha]
  simp [luhnCheck, hnil, luhnSum]

/-- C10: witness for the no-digit theorem at a concrete input. -/
theorem luhnCheck_no_digits_witness :
    luhnCheck "card number pending".data = true :=
  luhnCheck_no_digits.1 "card number pending".data (by decide)

theorem pathFlagged_append (p : List String) (l1 l2 : List Issue) :
    pathFlagged p (l1 ++ l2) = (pathFlagged p l1 || pathFlagged p l2) := by
  simp [pathFlagged, List.any_append]

theorem cardNumberIssues_path (v : List Char) :
    ∀ i ∈ cardNumberIssues v, i.path = ["card_number"] := by
  unfold cardNumberIssues
  split_ifs <;> decide

theorem holderNameIssues_path (v : List Char) :
    ∀ i ∈ holderNameIssues v, i.path = ["holder_name"] := by
  unfold holderNameIssues
  split_ifs <;> decide

theorem expirationYearIssues_path (cy : Nat) (v : List Char) :
    ∀ i ∈ expirationYearIssues cy v, i.path = ["expiration_year"] := by
  unfold expirationYearIssues
  split_ifs <;> decide

theorem expirationMonthIssues_path (v : List Char) :
    ∀ i ∈ expirationMonthIssues v, i.path = ["expiration_month"] := by
  unfold expirationMonthIssues
  split_ifs <;> decide

theorem cvv2FieldIssues_path (v : List Char) :
    ∀ i ∈ cvv2FieldIssues v, i.path = ["cvv2"] := by
  unfold cvv2FieldIssues
  split_ifs <;> decide

theorem cvvBrandIssues_path (c : Card) :
    ∀ i ∈ cvvBrandIssues c, i.path = ["cvv2"] := by
  unfold cvvBrandIssues
  dsimp only
  split_ifs <;> decide

theorem addressIssues_path (a : Address) :
    ∀ i ∈ addressIssues a, i.path.head? = some "address" := by
  unfold addressIssues
  split_ifs <;> decide

theorem pathFlagged_of_paths (p q : List String) (l : List Issue)
    (hl : ∀ i ∈ l, i.path = q) (hne : q ≠ p) : pathFlagged p l = false := by
  simp only [pathFlagged, List.any_eq_false]
  intro i hi
  simp [hl i hi, hne]

theorem pathFlagged_self (q : List String) (l : List Issue)
    (hl : ∀ i ∈ l, i.path = q) : pathFlagged q l = (!l.isEmpty) := by
  cases l with
  | nil => rfl
  | cons i t =>
      simp only [pathFlagged, List.any_cons, List.isEmpty_cons, Bool.not_false,
        hl i (List.mem_cons_self i t)]
      simp

/-- The `cvv2`-flagged issues come only from the `cvv2` field schema and from
the brand-conditioned `superRefine`. -/
theorem cvv2Flagged_decomp (cy : Nat) (c : Card) :
    cvv2Flagged cy c =
      (pathFlagged ["cvv2"] (cvv2FieldIssues c.cvv2) || pathFlagged ["cvv2"] (cvvBrandIssues c)) := by
  have h : cvv2Flagged cy c = pathFlagged ["cvv2"] (cardSchemaIssues cy c) := rfl
  rw [h]
  unfold cardSchemaIssues
  simp only [pathFlagged_append]
  rw [pathFlagged_of_paths _ _ _ (cardNumberIssues_path _) (by simp),
      pathFlagged_of_paths _ _ _ (holderNameIssues_path _) (by simp),
      pathFlagged_of_paths _ _ _ (expirationYearIssues_path cy _) (by simp),
      pathFlagged_of_paths _ _ _ (expirationMonthIssues_path _) (by simp)]
  have haddr : pathFlagged ["cvv2"]
      (match c.address with | none => [] | some a => addressIssues a) = false := by
    cases hA : c.address with
    | none => rfl
    | some a =>
        simp only [pathFlagged, List.any_eq_false]
        intro i hi
        have := addressIssues_path a i hi
        intro hc
        simp only [beq_iff_eq] at hc
        rw [hc] at this
        simp at this
  rw [haddr]
  simp

/-- Acceptance of the CVV by the full schema, as an equation on the flag. -/
theorem cvv2Flagged_iff (cy : Nat) (c : Card) :
    cvv2Flagged cy c = false ↔
      (digitsRegex c.cvv2 = true
       ∧ c.cvv2.length = (if amexTest (stripWs c.card_number) then 4 else 3)) := by
  rw [cvv2Flagged_decomp]
  unfold cvv2FieldIssues cvvBrandIssues
  split_ifs <;> simp_all [pathFlagged] <;> omega

/-- C4: confirmed. A well-typed card's CVV passes the schema (no issue is
recorded against `cvv2`) iff it is digits-only and its length is exactly 4
when the card number's brand is American Express and exactly 3 for every
other brand, `unknown` included; and brand amex is detected exactly when the
amex pattern matches. -/
theorem cvv_policy_spec :
    (∀ (cy : Nat) (c : Card),
      cvv2Flagged cy c = false ↔
        (digitsRegex c.cvv2 = true
         ∧ c.cvv2.length = (if amexTest (stripWs c.card_number) then 4 else 3)))
    ∧ (∀ cn : List Char, getCardType cn = "amex" ↔ amexTest cn = true) :=
  ⟨cvv2Flagged_iff, getCardType_amex_iff⟩

theorem cardNumberIssues_empty_iff (v : List Char) :
    cardNumberIssues v = [] ↔
      (13 ≤ v.length ∧ v.length ≤ 19
       ∧ CARD_PATTERNS.any (fun e => e.2 (stripWs v)) = true) := by
  unfold cardNumberIssues
  set p := CARD_PATTERNS.any (fun e => e.2 (stripWs v)) with hp
  split_ifs <;> simp_all

/-- The `card_number`-flagged issues come only from the field's own schema. -/
theorem cardNumberFlagged_decomp (cy : Nat) (c : Card) :
    pathFlagged ["card_number"] (cardSchemaIssues cy c) =
      (!(cardNumberIssues c.card_number).isEmpty) := by
  unfold cardSchemaIssues
  simp only [pathFlagged_append]
  rw [pathFlagged_self _ _ (cardNumberIssues_path _),
      pathFlagged_of_paths _ _ _ (holderNameIssues_path _) (by simp),
      pathFlagged_of_paths _ _ _ (expirationYearIssues_path cy _) (by simp),
      pathFlagged_of_paths _ _ _ (expirationMonthIssues_path _) (by simp),
      pathFlagged_of_paths _ _ _ (cvv2FieldIssues_path _) (by simp),
      pathFlagged_of_paths _ _ _ (cvvBrandIssues_path _) (by simp)]
  have haddr : pathFlagged ["card_number"]
      (match c.address with | none => [] | some a => addressIssues a) = false := by
    cases hA : c.address with
    | none => rfl
    | some a =>
        simp only [pathFlagged, List.any_eq_false]
        intro i hi
        have := addressIssues_path a i hi
        intro hc
        simp only [beq_iff_eq] at hc
        rw [hc] at this
        simp at this
  rw [haddr]
  simp

/-- C9: corrected (amended form). The schema accepts the `card_number` field
iff the raw string's length (whitespace included) lies between 13 and 19 and
the whitespace-stripped string matches at least one brand pattern; the
result is structured — every recorded issue sits at the `card_number` path
and carries one of the three fixed human-readable messages. -/
theorem cardNumber_schema_spec :
    (∀ v : List Char,
      cardNumberIssues v = [] ↔
        (13 ≤ v.length ∧ v.length ≤ 19
         ∧ CARD_PATTERNS.any (fun e => e.2 (stripWs v)) = true))
    ∧ (∀ (cy : Nat) (c : Card),
        pathFlagged ["card_number"] (cardSchemaIssues cy c) = false ↔
          cardNumberIssues c.card_number = [])
    ∧ (∀ v : List Char,
        (cardNumberIssues v).all (fun i =>
          i.path == ["card_number"]
          && ["Card number must be at least 13 digits",
              "Card number must not exceed 19 digits",
              "Invalid card number format"].contains i.message) = true) := by
  refine ⟨cardNumberIssues_empty_iff, ?_, ?_⟩
  · intro cy c
    rw [cardNumberFlagged_decomp]
    simp [List.isEmpty_iff]
  · intro v
    unfold cardNumberIssues
    split_ifs <;> decide

/-- C9: counterexample to the claim as stated: a card number of four digits
padded with nine spaces is accepted (raw length 13, stripped form has the
visa_electron prefix), although its digit-only length is 4, far below 13. -/
theorem cardNumber_counterexample :
    cardNumberIssues "4026         ".data = []
    ∧ (stripNonDigits "4026         ".data).length = 4
    ∧ (stripWs "4026         ".data).length = 4 := by decide

theorem attemptResult_of_fails (o : AttemptOutcome) (h : attemptFails o = true) :
    attemptResult o = .error (attemptError o) := by
  cases o <;> simp_all [attemptResult, attemptFails, attemptError]

theorem attemptResult_ok_ne (o : AttemptOutcome) (sid : String)
    (h : attemptResult o = .ok sid) : sid ≠ "" := by
  cases o with
  | fail e => simp [attemptResult] at h
  | session t =>
      simp only [attemptResult] at h
      split at h
      · exact Except.noConfusion h
      · next hne =>
          obtain rfl : t = sid := by simpa using h
          simpa using hne

theorem retryLoop_attempts_le (out : Nat → AttemptOutcome) (jit : Nat → ℚ) (s : ClientState) :
    ∀ remaining k : Nat, (retryLoop out jit s k remaining).attempts ≤ remaining := by
  intro remaining
  induction remaining with
  | zero => intro k; simp [retryLoop]
  | succ n ih =>
      intro k
      unfold retryLoop
      cases h : attemptResult (out k) with
      | ok sid => simp [h]
      | error e =>
          simp only [h]
          by_cases hn : n = 0
          · simp [hn]
          · have := ih (k + 1)
            simp [hn]
            omega

theorem retryLoop_all_fail (out : Nat → AttemptOutcome) (jit : Nat → ℚ) (s : ClientState)
    (hf : ∀ k, k < 3 → attemptFails (out k) = true) :
    retryLoop out jit s 0 3 =
      ⟨s, some (attemptError (out 2)), [backoffDelay 0 jit, backoffDelay 1 jit], 3⟩ := by
  have h0 := attemptResult_of_fails _ (hf 0 (by omega))
  have h1 := attemptResult_of_fails _ (hf 1 (by omega))
  have h2 := attemptResult_of_fails _ (hf 2 (by omega))
  simp [retryLoop, h0, h1, h2]

theorem backoffDelay_zero_eq (jit : Nat → ℚ) (h : jit 0 < 1000) :
    backoffDelay 0 jit = 2000 + jit 0 := by
  unfold backoffDelay
  norm_num
  linarith

theorem backoffDelay_one_eq (jit : Nat → ℚ) (h : jit 1 < 1000) :
    backoffDelay 1 jit = 4000 + jit 1 := by
  unfold backoffDelay
  norm_num
  linarith

/-- C5: confirmed. `initializeWithRetry` never exceeds the budget of 3
attempts; when every attempt fails with jitter in [0, 1000), it makes
exactly 3 attempts, the two delays between them follow
`min(2000 * 2^(attempt-1) + jitter, 10000)`, are strictly increasing and
bounded by 10000, the foreground call rejects with the last attempt's error,
and the background (construction-time) path swallows the error and schedules
a retry instead. -/
theorem retry_backoff :
    (∀ (out : Nat → AttemptOutcome) (jit : Nat → ℚ) (s : ClientState) (silent : Bool),
      (initializeWithRetry out jit s silent).attempts ≤ maxRetries)
    ∧ (∀ (out : Nat → AttemptOutcome) (jit : Nat → ℚ) (s : ClientState),
      (∀ k, 0 ≤ jit k ∧ jit k < 1000) →
      (∀ k, k < 3 → attemptFails (out k) = true) →
      ((initializeWithRetry out jit s false).attempts = 3
       ∧ (initializeWithRetry out jit s false).delays =
           [min (2000 * 2 ^ 0 + jit 0) 10000, min (2000 * 2 ^ 1 + jit 1) 10000]
       ∧ List.Chain' (fun a b => a < b) (initializeWithRetry out jit s false).delays
       ∧ (∀ d ∈ (initializeWithRetry out jit s false).delays, d ≤ 10000)
       ∧ (initializeWithRetry out jit s false).result = .error (attemptError (out 2))
       ∧ (initializeInBackground out jit s).1 = scheduleRetry s)) := by
  constructor
  · intro out jit s silent
    have hle := retryLoop_attempts_le out jit s maxRetries 0
    unfold initializeWithRetry
    cases h : (retryLoop out jit s 0 maxRetries).lastError <;> simp [h] <;> exact hle
  · intro out jit s hj hf
    have hloop := retryLoop_all_fail out jit s hf
    have hiwr : initializeWithRetry out jit s false =
        ⟨s, .error (attemptError (out 2)), [backoffDelay 0 jit, backoffDelay 1 jit], 3⟩ := by
      simp [initializeWithRetry, maxRetries, hloop]
    have e0 := backoffDelay_zero_eq jit (hj 0).2
    have e1 := backoffDelay_one_eq jit (hj 1).2
    refine ⟨by rw [hiwr], ?_, ?_, ?_, by rw [hiwr], ?_⟩
    · rw [hiwr]
      show [backoffDelay 0 jit, backoffDelay 1 jit] = _
      unfold backoffDelay
      norm_num
    · rw [hiwr]
      simp only [List.chain'_cons, List.chain'_singleton, and_true]
      rw [e0, e1]
      have := (hj 0).2
      have := (hj 1).1
      linarith
    · rw [hiwr]
      intro d hd
      simp only [List.mem_cons, List.not_mem_nil, or_false] at hd
      rcases hd with rfl | rfl
      · exact min_le_right _ _
      · exact min_le_right _ _
    · unfold initializeInBackground
      rw [hiwr]

/-- C5: witness at a concrete run where all three attempts fail. -/
theorem retry_backoff_witness :
    (initializeWithRetry (fun _ => .fail "boom") (fun _ => (0 : ℚ)) initialClientState false).attempts = 3
    ∧ (initializeWithRetry (fun _ => .fail "boom") (fun _ => (0 : ℚ)) initialClientState false).result
        = Except.error "boom"
    ∧ (initializeInBackground (fun _ => .fail "boom") (fun _ => (0 : ℚ)) initialClientState).1.retryTimeout
        = true := by
  have h := retry_backoff.2 (fun _ => .fail "boom") (fun _ => (0 : ℚ)) initialClientState
    (fun k => by norm_num) (fun k hk => rfl)
  exact ⟨h.1, h.2.2.2.2.1, by rw [h.2.2.2.2.2]; rfl⟩

theorem retryLoop_inv (out : Nat → AttemptOutcome) (jit : Nat → ℚ) (s : ClientState)
    (h : sessionInv s = true) :
    ∀ remaining k : Nat, sessionInv (retryLoop out jit s k remaining).state = true := by
  intro remaining
  induction remaining with
  | zero => intro k; simpa [retryLoop]
  | succ n ih =>
      intro k
      unfold retryLoop
      cases hr : attemptResult (out k) with
      | ok sid =>
          have hne := attemptResult_ok_ne _ _ hr
          simp [hr, sessionInv, bne_iff_ne, hne]
      | error e =>
          simp only [hr]
          by_cases hn : n = 0
          · simpa [hn]
          · have := ih (k + 1)
            simp [hn]
            exact this

/-- C6: confirmed. The invariant "deviceSessionId is non-empty iff
initialized" holds initially and is preserved by every modelled operation:
any run of `initializeWithRetry` (success or failure, foreground or silent),
the background construction-time initialization, and `cleanup`. -/
theorem session_invariant :
    sessionInv initialClientState = true
    ∧ (∀ (out : Nat → AttemptOutcome) (jit : Nat → ℚ) (s : ClientState) (silent : Bool),
        sessionInv s = true → sessionInv (initializeWithRetry out jit s silent).state = true)
    ∧ (∀ (out : Nat → AttemptOutcome) (jit : Nat → ℚ) (s : ClientState),
        sessionInv s = true → sessionInv (initializeInBackground out jit s).1 = true)
    ∧ (∀ s : ClientState, sessionInv (cleanup s) = true) := by
  refine ⟨rfl, ?_, ?_, fun s => rfl⟩
  · intro out jit s silent h
    have hr := retryLoop_inv out jit s h maxRetries 0
    unfold initializeWithRetry
    cases hl : (retryLoop out jit s 0 maxRetries).lastError <;> simp [hl] <;> exact hr
  · intro out jit s h
    have hr := retryLoop_inv out jit s h maxRetries 0
    unfold initializeInBackground initializeWithRetry
    cases hl : (retryLoop out jit s 0 maxRetries).lastError <;>
      simp [hl, scheduleRetry, sessionInv] <;>
      simpa [sessionInv] using hr

/-- C6: witness at a concrete failing run from the fresh state. -/
theorem session_invariant_witness :
    sessionInv (initializeWithRetry (fun _ => .fail "e") (fun _ => (0 : ℚ))
      initialClientState true).state = true :=
  session_invariant.2.1 (fun _ => .fail "e") (fun _ => (0 : ℚ)) initialClientState true
    (by decide)

/-- C7: confirmed. `cleanup` is idempotent: a second call produces the same
state as the first (and, being a total function, cannot fail); after any
call both timers are cancelled, the flags are reset, no vendor script tag
remains, and cleaning up a never-initialized client leaves the fresh
state. -/
theorem cleanup_idempotent_spec :
    (∀ s : ClientState, cleanup (cleanup s) = cleanup s)
    ∧ (∀ s : ClientState,
        (cleanup s).initialized = false ∧ (cleanup s).deviceSessionId = ""
        ∧ (cleanup s).retryTimeout = false ∧ (cleanup s).healthCheckInterval = false)
    ∧ (∀ s : ClientState, (cleanup s).scripts.all (fun src => !vendorScript src) = true)
    ∧ cleanup initialClientState = initialClientState := by
  refine ⟨?_, fun s => ⟨rfl, rfl, rfl, rfl⟩, ?_, rfl⟩
  · intro s
    simp [cleanup, List.filter_filter]
  · intro s
    rw [List.all_eq_true]
    intro x hx
    exact (List.mem_filter.mp hx).2

/-- C8: confirmed. `validateField` is a pure function of the current state:
with the client not initialized, the SDK-backed fields (card number, CVV,
expiry) come back `isValid = false` with the source's explanatory message
(non-empty whenever the relevant inputs are non-empty), while the local
holder-name check returns its correct result regardless of initialization;
every returned record has `isDirty = true` and echoes the input value. -/
theorem validateField_spec :
    ∀ (sdk : SDK) (v : List Char) (aux : Option (List Char)),
      (validateField sdk false .card_number v aux =
        { isValid := false, cardType := some "unknown",
          message := if v.length > 0 then "Invalid card number" else "",
          isDirty := true, value := v })
      ∧ (validateField sdk false .cvv2 v aux =
          { isValid := false,
            cardType := match aux with
              | some n => if n.isEmpty then none else some "unknown"
              | none => none,
            message := if v.length > 0 then "Invalid CVV (3 digits required)" else "",
            isDirty := true, value := v })
      ∧ (validateField sdk false .expiration_month v aux =
          { isValid := false, cardType := none,
            message := if v.length > 0 && (aux.getD []).length > 0
              then "Invalid expiration date" else "",
            isDirty := true, value := v })
      ∧ (validateField sdk false .expiration_year v aux =
          { isValid := false, cardType := none,
            message := if (aux.getD []).length > 0 && v.length > 0
              then "Invalid expiration date" else "",
            isDirty := true, value := v })
      ∧ (∀ init : Bool, validateField sdk init .holder_name v aux =
          { isValid := validateHolderName v, cardType := none,
            message := if validateHolderName v then "Valid name"
              else if v.length > 0
                then "Name must contain only letters and spaces (min 3 characters)"
              else "",
            isDirty := true, value := v })
      ∧ (∀ (init : Bool) (f : FieldName),
          (validateField sdk init f v aux).isDirty = true
          ∧ (validateField sdk init f v aux).value = v) := by
  intro sdk v aux
  refine ⟨rfl, ?_, rfl, rfl, fun init => rfl, fun init f => ?_⟩
  · cases aux with
    | none => rfl
    | some n =>
        by_cases hn : n.isEmpty <;>
          simp [validateField, getCardTypeSync, hn]
  · cases f <;> exact ⟨rfl, rfl⟩

end OpenPaySpec
